import Mathlib

/-!
Shallow embedding of the StudyBuddy AI frontend (frontend/src/App.jsx).
State updates performed through React setters are modelled as pure
state-transition functions; each `fetch` is modelled by passing the outcome
the network would produce as an explicit parameter, and the function
additionally returns the request it issued (`none` when no request is sent).
JavaScript strings are modelled as Lean `String` (character-counted where
JS counts UTF-16 units), JS numbers as `ℚ`, JS objects used as string maps
as functions `String → Option String`.
-/

namespace StudyBuddy

/-- A retrieval source attached to an assistant message
(`document_id`, `document_name`, `relevance_score`). -/
structure Source where
  document_id : String
  document_name : String
  relevance_score : ℚ
deriving DecidableEq

/-- A chat message as kept in the `messages` state:
role, content, optional sources, optional generated image. -/
structure Message where
  role : String
  content : String
  sources : List Source := []
  imageBase64 : Option String := none
deriving DecidableEq

/-- A document entry as returned by the upload endpoint and kept in the
`documents` state. -/
structure Document where
  id : String
  filename : String
  file_type : String
  chunk_count : Nat
deriving DecidableEq

/-- A recommendation topic as received from the recommendations endpoint. -/
structure RecTopic where
  type : String
  title : String
  description : String
  prompt : String
deriving DecidableEq

/-- The `App` component state relevant to the modelled handlers. -/
structure AppState where
  inputMode : String
  documents : List Document
  messages : List Message
  inputValue : String
  isLoading : Bool
  displayNames : String → Option String
  imageStyle : String
  recommendations : List RecTopic
  showRecommendations : Bool
  isLoadingRecommendations : Bool
  imageHistory : List (String × String)

/-- JavaScript `Math.round`: rounds half toward positive infinity. -/
def jsRound (q : ℚ) : ℤ := ⌊q + 1/2⌋

/-- The percentage badge rendered for a source in `ChatMessage`:
`Math.min(100, Math.round(source.relevance_score * 100))`. -/
def badgePercent (relevanceScore : ℚ) : ℤ :=
  min 100 (jsRound (relevanceScore * 100))

/-- File extensions accepted by `handleFiles` in `FileUpload`. -/
def allowedExtensions : List String := ["pdf", "pptx", "docx", "txt"]

/-- Character-level model of JS `name.split('.')` (single-character
separator): the `.`-separated components of the name, in order. -/
def jsSplitDot (name : String) : List String :=
  (name.data.splitOn '.').map String.mk

/-- Character-level model of JS `toLowerCase` (ASCII letters). -/
def jsToLower (s : String) : String :=
  String.mk (s.data.map Char.toLower)

/-- Character-level model of JS `trim`: drop leading and trailing
whitespace. -/
def jsTrim (s : String) : String :=
  String.mk
    (((s.data.dropWhile Char.isWhitespace).reverse.dropWhile Char.isWhitespace).reverse)

/-- JavaScript `file.name.split('.').pop().toLowerCase()` as computed in
`handleFiles`. -/
def jsExt (name : String) : String :=
  jsToLower ((jsSplitDot name).getLastD "")

/-- `handleFiles` in `FileUpload`: iterates over the selected/dropped files
and calls `onUpload` exactly on those whose `jsExt` is allowed; returns the
list of file names passed to `onUpload`, in order. -/
def handleFiles (files : List String) : List String :=
  files.filter (fun name => allowedExtensions.contains (jsExt name))

/-- The notion of "final filename extension" used by the specification: the
part after the last '.' of the name when the name contains a '.'; a dotless
name has no extension. Stated from the spec's words, for comparison with
the source's `jsExt`. -/
def finalExtension (name : String) : Option String :=
  if 2 ≤ (jsSplitDot name).length then some ((jsSplitDot name).getLastD "")
  else none

/-- `handleDelete` in `App`: on a successful DELETE response the document is
filtered out of `documents` and its display-name entry removed; on a failed
response or a network error only a toast is shown and the state is kept. -/
def handleDelete (st : AppState) (docId : String) (success : Bool) : AppState :=
  if success then
    { st with
      documents := st.documents.filter (fun d => d.id != docId),
      displayNames := fun k => if k = docId then none else st.displayNames k }
  else st

/-- The icon rendered for a recommendation topic in `App`'s recommendation
list: a chain of strict-equality tests on `rec.type` with a final fallback. -/
def recIcon (t : String) : String :=
  if t = "overview" then "🌐"
  else if t = "chapter" then "📑"
  else if t = "summary" then "📝"
  else if t = "qa" then "❓"
  else if t = "review" then "🎓"
  else "🔍"

/-- Request body of `POST /qa/ask` sent by `handleSend`. -/
structure QaRequest where
  question : String
deriving DecidableEq

/-- Parsed JSON body of a successful `POST /qa/ask` response. -/
structure QaResponse where
  answer : String
  sources : List Source
deriving DecidableEq

/-- Outcome of the `fetch` in `handleSend`: a parsed success body, an HTTP
error body carrying `detail`, or a thrown network error. -/
inductive QaOutcome where
  | ok (data : QaResponse)
  | httpError (detail : String)
  | networkError
deriving DecidableEq

/-- `handleSend` in `App`: guard on blank trimmed input or an in-flight
request; otherwise append the user message, clear the input, send the
question, append the assistant (or error) message, reset loading. Returns
the new state and the request issued (`none` when guarded). -/
def handleSend (st : AppState) (net : QaOutcome) : AppState × Option QaRequest :=
  if jsTrim st.inputValue == "" || st.isLoading then (st, none)
  else
    let userMessage : Message := { role := "user", content := st.inputValue }
    let st1 := { st with
      messages := st.messages ++ [userMessage],
      inputValue := "",
      isLoading := true }
    let st2 : AppState :=
      match net with
      | .ok data =>
          { st1 with messages := st1.messages ++
              [{ role := "assistant", content := data.answer, sources := data.sources }] }
      | .httpError detail =>
          { st1 with messages := st1.messages ++
              [{ role := "assistant", content := "抱歉，处理请求时出错：" ++ detail }] }
      | .networkError =>
          { st1 with messages := st1.messages ++
              [{ role := "assistant", content := "连接服务器失败，请检查后端是否启动" }] }
    ({ st2 with isLoading := false }, some { question := st.inputValue })

/-- The sequence of answer fragments a successful `handleSend` delivers to
the message list: the contents of the assistant messages appended after the
echoed user message. -/
def qaAnswerUpdates (st : AppState) (data : QaResponse) : List String :=
  (((handleSend st (.ok data)).1.messages).drop (st.messages.length + 1)).map
    (fun m => m.content)

/-- The three `setImageStyle` calls reachable from the style-selector
buttons in `App` — the only writes to the `imageStyle` state. -/
inductive StyleEvent where
  | setMindmap
  | setDiagram
  | setEducational
deriving DecidableEq

/-- Effect of one style-selector click on the `imageStyle` state. -/
def applyStyleEvent (_s : String) (e : StyleEvent) : String :=
  match e with
  | .setMindmap => "mindmap"
  | .setDiagram => "diagram"
  | .setEducational => "educational"

/-- Initial value of the `imageStyle` state: `useState('mindmap')`. -/
def imageStyleInit : String := "mindmap"

/-- The `imageStyle` state after a sequence of style-selector clicks. -/
def imageStyleAfter (evs : List StyleEvent) : String :=
  evs.foldl applyStyleEvent imageStyleInit

/-- One line of the flattened conversation history:
`` `${m.role}: ${m.content}` ``. -/
def fmtTurn (m : Message) : String := m.role ++ ": " ++ m.content

/-- `conversationHistory` computed in `handleGenerateImage`:
`messages.slice(-6).map(m => ...).join('\n')`. JS `slice(-6)` keeps the
last six elements (the whole list when shorter), i.e. `drop (length - 6)`. -/
def conversationHistory (messages : List Message) : String :=
  String.intercalate "\n"
    ((messages.drop (messages.length - 6)).map fmtTurn)

/-- Request body of `POST /generate/visualization` sent by
`handleGenerateImage`. -/
structure VisRequest where
  prompt : String
  style : String
  conversation_history : String
  aspect_ratio : String
deriving DecidableEq

/-- Outcome of the `fetch` in `handleGenerateImage`. -/
inductive VisOutcome where
  | ok (description : Option String) (image_base64 : String)
  | httpError
  | networkError
deriving DecidableEq

/-- JS truthiness test for the optional `customPrompt` argument:
`!customPrompt` is true for `null`/absent and for the empty string. -/
def jsFalsy (o : Option String) : Bool :=
  match o with
  | none => true
  | some c => c == ""

/-- `customPrompt || inputValue` in `handleGenerateImage`. -/
def promptOf (customPrompt : Option String) (inputValue : String) : String :=
  if jsFalsy customPrompt then inputValue else customPrompt.getD inputValue

/-- `data.description || fallback`: use the description unless it is absent
or empty. -/
def descriptionOr (description : Option String) (fallback : String) : String :=
  match description with
  | some d => if d == "" then fallback else d
  | none => fallback

/-- The JSON body of the `POST /generate/visualization` request as built in
`handleGenerateImage`: the effective prompt, the current `imageStyle`, the
flattened window over the (pre-update) messages, and the fixed `16:9`
aspect ratio. -/
def visRequestOf (st : AppState) (customPrompt : Option String) : VisRequest :=
  { prompt := promptOf customPrompt st.inputValue,
    style := st.imageStyle,
    conversation_history := conversationHistory st.messages,
    aspect_ratio := "16:9" }

/-- `handleGenerateImage` in `App`: guard on blank trimmed prompt or an
in-flight request; otherwise append the user message, send the
visualization request built from the (pre-update) messages and the current
`imageStyle`, and append the assistant message (image on success, fixed
error text otherwise). Returns the new state and the request issued. -/
def handleGenerateImage (st : AppState) (customPrompt : Option String)
    (net : VisOutcome) : AppState × Option VisRequest :=
  let prompt := promptOf customPrompt st.inputValue
  if jsTrim prompt == "" || st.isLoading then (st, none)
  else
    let userMessage : Message :=
      { role := "user",
        content := if st.inputMode == "image" then "🎨 生成图解：" ++ prompt else prompt }
    let st1 := { st with
      messages := st.messages ++ [userMessage],
      inputValue := if jsFalsy customPrompt then "" else st.inputValue,
      isLoading := true }
    let req : VisRequest := visRequestOf st customPrompt
    let st2 : AppState :=
      match net with
      | .ok description image =>
          { st1 with
            messages := st1.messages ++
              [{ role := "assistant",
                 content := descriptionOr description ("已为「" ++ prompt ++ "」生成知识图解"),
                 imageBase64 := some image }],
            imageHistory := st1.imageHistory ++ [(prompt, image)] }
      | .httpError =>
          { st1 with messages := st1.messages ++
              [{ role := "assistant", content := "抱歉，图像生成失败。请稍后重试。" }] }
      | .networkError =>
          { st1 with messages := st1.messages ++
              [{ role := "assistant", content := "连接服务器失败，请检查后端是否启动" }] }
    ({ st2 with isLoading := false }, some req)

/-- The send button's `disabled` attribute: `!inputValue.trim() || isLoading`. -/
def sendButtonDisabled (st : AppState) : Bool :=
  jsTrim st.inputValue == "" || st.isLoading

/-- Request body of the recommendations `fetch` in
`handleShowRecommendations`. -/
structure RecRequest where
  endpoint : String
  document_ids : List String
  conversation_history : List (String × String)
deriving DecidableEq

/-- Parsed JSON body of a successful recommendations response
(`data.topics || []`). -/
structure RecResponse where
  topics : List RecTopic
deriving DecidableEq

/-- Outcome of the recommendations `fetch`. -/
inductive RecOutcome where
  | ok (data : RecResponse)
  | httpError
  | networkError
deriving DecidableEq

/-- Result of `handleShowRecommendations`: the updated state, the request
issued (`none` when no fetch happens), and whether the catch block logged
an error to the console. -/
structure RecResult where
  state : AppState
  request : Option RecRequest
  errorLogged : Bool

/-- `handleShowRecommendations` in `App`: with no documents it shows the
popup with an empty recommendation list and returns before any fetch;
otherwise it fetches from the mode-dependent endpoint and stores
`data.topics || []`, falling back to `[]` (with a console error) on any
failure. -/
def handleShowRecommendations (st : AppState) (net : RecOutcome) : RecResult :=
  if st.documents.length = 0 then
    { state := { st with recommendations := [], showRecommendations := true },
      request := none,
      errorLogged := false }
  else
    let st1 := { st with isLoadingRecommendations := true, showRecommendations := true }
    let req : RecRequest :=
      { endpoint := if st.inputMode = "chat" then "/recommendations/chat"
                    else "/recommendations/visualization",
        document_ids := st.documents.map (fun d => d.id),
        conversation_history := st.messages.map (fun m => (m.role, m.content)) }
    match net with
    | .ok data =>
        let stOk : AppState :=
          { st1 with recommendations := data.topics, isLoadingRecommendations := false }
        { state := stOk, request := some req, errorLogged := false }
    | _ =>
        let stErr : AppState :=
          { st1 with recommendations := [], isLoadingRecommendations := false }
        { state := stErr, request := some req, errorLogged := true }

/-- Character-level model of JS `content.substring(0, n)`. -/
def jsTake (s : String) (n : Nat) : String := String.mk (s.data.take n)

/-- Fixed instruction prepended in `onGenerateFromContent`. -/
def genFromContentInstruction : String := "根据以下内容生成知识图解："

/-- `onGenerateFromContent` in `App`: the custom prompt passed to
`handleGenerateImage`, built from the fixed instruction and the first 2000
characters of the message content. -/
def generateFromContentPrompt (content : String) : String :=
  genFromContentInstruction ++ jsTake content 2000

/-- An initial-like concrete application state used by the witnesses. -/
def sampleState : AppState :=
  { inputMode := "chat",
    documents := [],
    messages := [],
    inputValue := "",
    isLoading := false,
    displayNames := fun _ => none,
    imageStyle := "mindmap",
    recommendations := [],
    showRecommendations := false,
    isLoadingRecommendations := false,
    imageHistory := [] }

/-- A concrete state with two indexed documents and their display names. -/
def deleteState : AppState :=
  { sampleState with
    documents := [⟨"a", "a.pdf", "pdf", 3⟩, ⟨"b", "b.txt", "txt", 2⟩],
    displayNames := fun k =>
      if k = "a" then some "Alpha" else if k = "b" then some "Beta" else none }

/-- A concrete state with a pending question typed into the input box. -/
def qaState : AppState := { sampleState with inputValue := "什么是RAG" }

/-- A concrete state in image mode with seven prior messages, style
`diagram`, and a prompt typed into the input box. -/
def visState : AppState :=
  { sampleState with
    inputMode := "image",
    imageStyle := "diagram",
    inputValue := "光合作用",
    messages := [⟨"user", "m1", [], none⟩, ⟨"assistant", "m2", [], none⟩,
                 ⟨"user", "m3", [], none⟩, ⟨"assistant", "m4", [], none⟩,
                 ⟨"user", "m5", [], none⟩, ⟨"assistant", "m6", [], none⟩,
                 ⟨"user", "m7", [], none⟩] }

/-- C1: at presentation, a source's relevance score is clamped to 100%: the
percentage badge rendered by `ChatMessage` equals
`min 100 (round (relevance_score * 100))` and never exceeds 100, whatever
relevance score the backend sent. -/
theorem relevance_badge_clamped (s : ℚ) :
    badgePercent s = min 100 (jsRound (s * 100)) ∧ badgePercent s ≤ 100 :=
  ⟨rfl, min_le_left _ _⟩

/-- C7 counterexample: a file named `txt`, which contains no `.` and hence
has no final filename extension, is nevertheless passed to `onUpload` by
`handleFiles`, refuting "never for any other file". -/
theorem upload_filter_dotless_counterexample :
    handleFiles ["txt"] = ["txt"] ∧ finalExtension "txt" = none := by
  constructor
  · rfl
  · rfl

/-- C7 amended: `handleFiles` invokes the upload handler exactly for the
files whose lowercased final `.`-separated name component (the final
filename extension when the name contains a dot, the whole name otherwise)
is in {pdf, pptx, docx, txt}. -/
theorem upload_filter_characterization (files : List String) (name : String) :
    name ∈ handleFiles files ↔ name ∈ files ∧ jsExt name ∈ allowedExtensions := by
  simp [handleFiles, List.mem_filter, List.elem_iff]

/-- C8: the recommendation-type-to-icon mapping is total: overview, chapter,
summary, qa and review each map to a distinct icon, and every other type
string (including `other`) maps to the single fallback icon 🔍. -/
theorem recommendation_icon_total (t : String)
    (ht : t ∉ ["overview", "chapter", "summary", "qa", "review"]) :
    recIcon "overview" = "🌐" ∧ recIcon "chapter" = "📑" ∧ recIcon "summary" = "📝" ∧
    recIcon "qa" = "❓" ∧ recIcon "review" = "🎓" ∧ recIcon "other" = "🔍" ∧
    recIcon t = "🔍" ∧
    List.Nodup ["🌐", "📑", "📝", "❓", "🎓", "🔍"] := by
  simp only [List.mem_cons, List.not_mem_nil, or_false, not_or] at ht
  obtain ⟨h1, h2, h3, h4, h5⟩ := ht
  refine ⟨by decide, by decide, by decide, by decide, by decide, by decide, ?_, by decide⟩
  simp [recIcon, h1, h2, h3, h4, h5]

/-- C8 witness: the icon mapping evaluated on the five known types and on
the unrecognized type string `mystery`. -/
theorem recommendation_icon_total_witness :
    recIcon "overview" = "🌐" ∧ recIcon "chapter" = "📑" ∧ recIcon "summary" = "📝" ∧
    recIcon "qa" = "❓" ∧ recIcon "review" = "🎓" ∧ recIcon "other" = "🔍" ∧
    recIcon "mystery" = "🔍" ∧
    List.Nodup ["🌐", "📑", "📝", "❓", "🎓", "🔍"] :=
  recommendation_icon_total "mystery" (by decide)

/-- C10: the custom prompt built by `onGenerateFromContent` is the fixed
instruction followed by at most the first 2000 characters of the message
content, so its length never exceeds the instruction length plus 2000. -/
theorem generate_from_content_bounded (content : String) :
    generateFromContentPrompt content = genFromContentInstruction ++ jsTake content 2000 ∧
    (jsTake content 2000).length ≤ 2000 ∧
    (generateFromContentPrompt content).length ≤ genFromContentInstruction.length + 2000 ∧
    content.data = (jsTake content 2000).data ++ content.data.drop 2000 := by
  have hlen : (jsTake content 2000).length ≤ 2000 := by
    show (content.data.take 2000).length ≤ 2000
    simp [List.length_take]
  refine ⟨rfl, hlen, ?_, ?_⟩
  · have : (generateFromContentPrompt content).length =
        genFromContentInstruction.length + (jsTake content 2000).length :=
      String.length_append _ _
    omega
  · show content.data = content.data.take 2000 ++ content.data.drop 2000
    exact (List.take_append_drop 2000 content.data).symm

/-- C2: with an empty document list, invoking the recommendations action
yields an empty topics list, issues no request to the recommendation
endpoint, and logs no error (the popup simply opens on its empty state). -/
theorem empty_corpus_recommendations (st : AppState) (net : RecOutcome)
    (h : st.documents = []) :
    (handleShowRecommendations st net).state.recommendations = [] ∧
    (handleShowRecommendations st net).request = none ∧
    (handleShowRecommendations st net).errorLogged = false ∧
    (handleShowRecommendations st net).state.showRecommendations = true := by
  simp [handleShowRecommendations, h]

/-- C2 witness: the empty-corpus recommendation action evaluated on the
initial state (with the network unreachable, which is never consulted). -/
theorem empty_corpus_recommendations_witness :
    (handleShowRecommendations sampleState .networkError).state.recommendations = [] ∧
    (handleShowRecommendations sampleState .networkError).request = none ∧
    (handleShowRecommendations sampleState .networkError).errorLogged = false ∧
    (handleShowRecommendations sampleState .networkError).state.showRecommendations = true :=
  empty_corpus_recommendations sampleState .networkError rfl

/-- C3 counterexample: for a concrete question and backend answer, the
caller receives exactly one assistant update containing the complete
answer — a single complete response, not a stream of partial chunks. -/
theorem qa_single_chunk_counterexample :
    qaAnswerUpdates qaState { answer := "检索增强生成", sources := [] } = ["检索增强生成"] ∧
    (qaAnswerUpdates qaState { answer := "检索增强生成", sources := [] }).length = 1 := by
  constructor <;> rfl

/-- C3 amended: `handleSend` delivers the QA answer in a single step: when
the guard passes, the assistant updates appended to the message list are
exactly the one-element list holding the complete answer, and the
concatenation of the delivered chunks equals that answer. -/
theorem qa_answer_single_complete (st : AppState) (data : QaResponse)
    (hin : ¬ jsTrim st.inputValue = "") (hload : st.isLoading = false) :
    qaAnswerUpdates st data = [data.answer] ∧
    String.join (qaAnswerUpdates st data) = data.answer := by
  have hb : (jsTrim st.inputValue == "" || st.isLoading) = false := by
    simp [hin, hload]
  have h1 : qaAnswerUpdates st data = [data.answer] := by
    simp only [qaAnswerUpdates, handleSend, hb, Bool.false_eq_true, if_false]
    have hlen : st.messages.length + 1 =
        (st.messages ++ [({ role := "user", content := st.inputValue } : Message)]).length := by
      simp
    rw [hlen, List.drop_left]
    rfl
  refine ⟨h1, ?_⟩
  rw [h1]
  simp [String.join]

/-- C3 amended witness: the single-step delivery evaluated at a concrete
state and response. -/
theorem qa_answer_single_complete_witness :
    qaAnswerUpdates qaState { answer := "AB", sources := [] } = ["AB"] ∧
    String.join (qaAnswerUpdates qaState { answer := "AB", sources := [] }) = "AB" :=
  qa_answer_single_complete qaState { answer := "AB", sources := [] } (by decide) rfl

/-- Helper: every issued visualization request is the one built by
`visRequestOf`. -/
theorem handleGenerateImage_request (st : AppState) (cp : Option String)
    (net : VisOutcome) (req : VisRequest)
    (hreq : (handleGenerateImage st cp net).2 = some req) :
    req = visRequestOf st cp := by
  dsimp only [handleGenerateImage] at hreq
  split at hreq
  · simp at hreq
  · cases net <;> simp_all

/-- Helper: starting from any of the three style strings, any sequence of
style-selector clicks stays within the three style strings. -/
theorem styleAfter_mem_aux (evs : List StyleEvent) :
    ∀ s : String, s ∈ ["mindmap", "diagram", "educational"] →
      List.foldl applyStyleEvent s evs ∈ ["mindmap", "diagram", "educational"] := by
  induction evs with
  | nil => intro s hs; simpa using hs
  | cons e es ih =>
      intro s _
      simp only [List.foldl_cons]
      apply ih
      cases e <;> simp [applyStyleEvent]

/-- C4: every visualization request issued by `handleGenerateImage` has the
shape `{prompt, style, conversation_history, aspect_ratio}` with
`aspect_ratio = "16:9"` and `style` equal to the current `imageStyle`,
which starts at `"mindmap"` and, under any sequence of style-selector
clicks, stays in {mindmap, diagram, educational}. -/
theorem visualization_request_shape (evs : List StyleEvent) (st : AppState)
    (cp : Option String) (net : VisOutcome) (req : VisRequest)
    (hstyle : st.imageStyle = imageStyleAfter evs)
    (hreq : (handleGenerateImage st cp net).2 = some req) :
    req.aspect_ratio = "16:9" ∧
    req.style = st.imageStyle ∧
    req.style ∈ ["mindmap", "diagram", "educational"] ∧
    imageStyleInit = "mindmap" := by
  obtain rfl := handleGenerateImage_request st cp net req hreq
  refine ⟨rfl, rfl, ?_, rfl⟩
  show st.imageStyle ∈ _
  rw [hstyle]
  exact styleAfter_mem_aux evs imageStyleInit (by decide)

/-- C4 witness: a request issued from a concrete reachable state (style set
to `diagram` by one click) has aspect ratio `16:9` and an allowed style. -/
theorem visualization_request_shape_witness :
    (visRequestOf visState none).aspect_ratio = "16:9" ∧
    (visRequestOf visState none).style = visState.imageStyle ∧
    (visRequestOf visState none).style ∈ ["mindmap", "diagram", "educational"] ∧
    imageStyleInit = "mindmap" :=
  visualization_request_shape [.setDiagram] visState none .httpError
    (visRequestOf visState none) rfl rfl

/-- C5: the conversation history accompanying any issued visualization
request is the newline-joined `role: content` rendering of at most the six
most recent messages — a suffix of the message list, so older messages
never contribute a line. -/
theorem visualization_history_window (st : AppState) (cp : Option String)
    (net : VisOutcome) (req : VisRequest)
    (hreq : (handleGenerateImage st cp net).2 = some req) :
    req.conversation_history =
      String.intercalate "\n" ((st.messages.drop (st.messages.length - 6)).map fmtTurn) ∧
    (st.messages.drop (st.messages.length - 6)).length ≤ 6 ∧
    st.messages =
      st.messages.take (st.messages.length - 6) ++
        st.messages.drop (st.messages.length - 6) := by
  obtain rfl := handleGenerateImage_request st cp net req hreq
  refine ⟨rfl, ?_, (List.take_append_drop _ _).symm⟩
  rw [List.length_drop]
  omega

/-- C5 witness: from a concrete seven-message state, the issued request's
history is the six-message window and the first message is outside it. -/
theorem visualization_history_window_witness :
    (visRequestOf visState none).conversation_history =
      String.intercalate "\n"
        ((visState.messages.drop (visState.messages.length - 6)).map fmtTurn) ∧
    (visState.messages.drop (visState.messages.length - 6)).length ≤ 6 ∧
    visState.messages =
      visState.messages.take (visState.messages.length - 6) ++
        visState.messages.drop (visState.messages.length - 6) :=
  visualization_history_window visState none .httpError (visRequestOf visState none) rfl

/-- C6: after a successful delete of `docId`, no document with that id
remains, its display-name entry is gone, while any other document and any
other display-name entry is preserved (the surviving list is a sublist of
the old one); a failed delete leaves the state unchanged. -/
theorem document_delete_frame (st : AppState) (docId : String) (d : Document)
    (k : String) (hd : d ∈ st.documents) (hdne : d.id ≠ docId) (hk : k ≠ docId) :
    ((handleDelete st docId true).documents.all (fun e => e.id != docId)) = true ∧
    (handleDelete st docId true).displayNames docId = none ∧
    d ∈ (handleDelete st docId true).documents ∧
    List.Sublist (handleDelete st docId true).documents st.documents ∧
    (handleDelete st docId true).displayNames k = st.displayNames k ∧
    handleDelete st docId false = st := by
  refine ⟨?_, ?_, ?_, ?_, ?_, rfl⟩
  · rw [List.all_eq_true]
    intro e he
    exact (List.mem_filter.mp he).2
  · simp [handleDelete]
  · simp only [handleDelete, if_true]
    exact List.mem_filter.mpr ⟨hd, by simpa using hdne⟩
  · simp only [handleDelete, if_true]
    exact List.filter_sublist _
  · simp [handleDelete, hk]

/-- C6 witness: deleting document `a` from a concrete two-document state
keeps document `b` and its display name and removes `a` entirely; a failed
delete changes nothing. -/
theorem document_delete_frame_witness :
    ((handleDelete deleteState "a" true).documents.all (fun e => e.id != "a")) = true ∧
    (handleDelete deleteState "a" true).displayNames "a" = none ∧
    (⟨"b", "b.txt", "txt", 2⟩ : Document) ∈ (handleDelete deleteState "a" true).documents ∧
    List.Sublist (handleDelete deleteState "a" true).documents deleteState.documents ∧
    (handleDelete deleteState "a" true).displayNames "b" = deleteState.displayNames "b" ∧
    handleDelete deleteState "a" false = deleteState :=
  document_delete_frame deleteState "a" ⟨"b", "b.txt", "txt", 2⟩ "b"
    (by decide) (by decide) (by decide)

/-- C9: when the trimmed input is blank or a request is in flight, sending
in chat mode and generating an image without a custom prompt both leave the
state unchanged and issue no request, and the send button is disabled. -/
theorem blank_input_guard (st : AppState) (net : QaOutcome) (vnet : VisOutcome)
    (h : jsTrim st.inputValue = "" ∨ st.isLoading = true) :
    handleSend st net = (st, none) ∧
    handleGenerateImage st none vnet = (st, none) ∧
    sendButtonDisabled st = true := by
  have hb : (jsTrim st.inputValue == "" || st.isLoading) = true := by
    rcases h with h | h <;> simp [h]
  refine ⟨?_, ?_, ?_⟩
  · simp [handleSend, hb]
  · have hb2 : (jsTrim (promptOf none st.inputValue) == "" || st.isLoading) = true := hb
    simp [handleGenerateImage, hb2]
  · simpa [sendButtonDisabled] using hb

/-- C9 witness: in a concrete loading state the guard holds, both handlers
are no-ops issuing no request, and the send button is disabled. -/
theorem blank_input_guard_witness :
    handleSend { sampleState with isLoading := true } .networkError =
      ({ sampleState with isLoading := true }, none) ∧
    handleGenerateImage { sampleState with isLoading := true } none .networkError =
      ({ sampleState with isLoading := true }, none) ∧
    sendButtonDisabled { sampleState with isLoading := true } = true :=
  blank_input_guard { sampleState with isLoading := true } .networkError .networkError
    (Or.inr rfl)

end StudyBuddy
